import Mathlib

/-!
Verification development for the Six backend service.

This file gives a shallow embedding, in Lean 4, of the parts of the
service that the specification claims talk about:

* `GhostAskService` (app/services/ghost_ask_service.py): the challenge
  unlock check, ghost-ask creation, and the persuasion / force-send logic.
* `RateLimiter` (app/utils/rate_limiter.py): the sliding-window counter.
* `PostService` (app/services/post_service.py): the cache-first insight
  analysis path.
* `NetworkQuery` (app/api/network_query.py): the first/second degree
  match assembly of the query endpoint.
* `IntroService` (app/services/intro_service.py): the expiry sweep and
  the internal rate-limit / cooldown gates.
* `LocationChatService` (app/services/location_chat_service.py): the
  Haversine distance and the nearby-network-users pipeline.
* `validators` (app/utils/validators.py): image URL validation.

Conventions: wall-clock instants and durations are integers counted in
seconds (the code manipulates `datetime` values with second-or-finer
resolution; every comparison the claims depend on is preserved
verbatim).  External effects (the relational data store, the AI
provider) are passed in as explicit values or function parameters; a
data-store query that may raise is an `Except` value.
-/

namespace SixApp

/-! ### Python string primitives

The built-in Lean `String` operations are sealed behind compiler
intrinsics, so the Python `str` methods the code uses are modelled
directly over the character list of a string. -/

/-- Python `str.strip()`: drop leading and trailing whitespace. -/
def pyStrip (s : String) : String :=
  ⟨((s.data.dropWhile Char.isWhitespace).reverse.dropWhile
      Char.isWhitespace).reverse⟩

/-- Python `str.startswith(p)`. -/
def pyStartsWith (s p : String) : Bool := p.data.isPrefixOf s.data

/-- Python `str.endswith(p)`. -/
def pyEndsWith (s p : String) : Bool := p.data.isSuffixOf s.data

/-- Python `str.lower()`. -/
def pyLower (s : String) : String := ⟨s.data.map Char.toLower⟩

/-- Python `c in s` for a single character. -/
def pyContains (s : String) (c : Char) : Bool := s.data.contains c

/-- Python `len(s)`: the number of characters. -/
def pyLen (s : String) : Nat := s.data.length

/-- Ghost ask status enumeration (app/models/schemas.py, `GhostAskStatus`). -/
inductive GhostAskStatus
  | pending
  | sent
  | blocked
  deriving DecidableEq, Repr

/-- A row of the `daily_challenges` table as read by the ghost-ask service:
the start of the challenge window (`challenge_time`, seconds) and the
`has_posted` flag. -/
structure DailyChallenge where
  challenge_time : Int
  has_posted : Bool
  deriving DecidableEq, Repr

/-- A row of the `ghost_asks` table (the fields the service reads/writes). -/
structure GhostAsk where
  sender_id : String
  recipient_id : String
  message : String
  status : GhostAskStatus
  unlocked : Bool
  persuasion_attempts : Nat
  deriving DecidableEq, Repr

namespace GhostAskService

/-- Embeds `GhostAskService._check_user_posted_in_challenge_window`
(app/services/ghost_ask_service.py).  `challenge?` is the most recent
`daily_challenges` row of the user (`none` when the query returns no
rows, which the code answers with `False`); `now` is the current time
and `windowMinutes` is `settings.challenge_unlock_window_minutes`
(default 6).  The code tests
`challenge_time <= now <= challenge_end_time and has_posted`, and then
the grace branch `has_posted and now < challenge_end_time + 5 minutes`. -/
def check_user_posted_in_challenge_window
    (challenge? : Option DailyChallenge) (now windowMinutes : Int) : Bool :=
  match challenge? with
  | none => false
  | some challenge =>
    let challenge_end_time := challenge.challenge_time + windowMinutes * 60
    if challenge.challenge_time ≤ now ∧ now ≤ challenge_end_time ∧
        challenge.has_posted = true then
      true
    else if challenge.has_posted = true ∧ now < challenge_end_time + 5 * 60 then
      true
    else
      false

/-- The unlock condition in the words of the specification claim: the most
recent DailyChallenge row has `has_posted=true` and `now` lies within
`[challenge_time, challenge_time + windowMinutes]`, or `has_posted=true`
and `now` is within `window_end + 5` minutes (grace period); no row means
locked.  This definition exists only to be compared with
`check_user_posted_in_challenge_window`. -/
def claimed_unlock_condition
    (challenge? : Option DailyChallenge) (now windowMinutes : Int) : Bool :=
  match challenge? with
  | none => false
  | some c =>
    decide ((c.has_posted = true ∧ c.challenge_time ≤ now ∧
              now ≤ c.challenge_time + windowMinutes * 60) ∨
            (c.has_posted = true ∧ now < c.challenge_time + windowMinutes * 60 + 5 * 60))

/-- Embeds `GhostAskService._check_rate_limits`.  `countQuery` is the
outcome of the data-store count of the sender's ghost asks over the last
day: `.ok n` when the query returns count `n`, `.error e` when it
raises.  The `except` handler returns `(True, None)` (fail open). -/
def check_rate_limits (countQuery : Except String Nat) (maxPerDay : Nat) :
    Bool × Option String :=
  match countQuery with
  | .ok count =>
    if count ≥ maxPerDay then
      (false, some s!"you\x27ve reached the daily limit of {maxPerDay} ghost asks")
    else
      (true, none)
  | .error _ => (true, none)

/-- The response dictionary of `GhostAskService.create_ghost_ask`
(the fields the claims mention). -/
structure CreateResponse where
  success : Bool
  error? : Option String
  status? : Option GhostAskStatus
  message? : Option String
  unlock_required : Bool
  deriving DecidableEq, Repr

/-- Embeds `GhostAskService.create_ghost_ask`.  Returns the response
dictionary together with the `ghost_asks` row as it stands after the
call (`none` when creation was rejected by the rate limit).  When the
sender is unlocked, `_send_ghost_ask` sets the row's status to `sent`
before the success response is returned. -/
def create_ghost_ask (challenge? : Option DailyChallenge) (now windowMinutes : Int)
    (countQuery : Except String Nat) (maxPerDay : Nat)
    (sender_id recipient_id message : String) : CreateResponse × Option GhostAsk :=
  let has_posted_in_window := check_user_posted_in_challenge_window challenge? now windowMinutes
  let rate := check_rate_limits countQuery maxPerDay
  if rate.1 = false then
    ({ success := false, error? := rate.2, status? := none, message? := none,
       unlock_required := false }, none)
  else
    let ghost_ask : GhostAsk :=
      { sender_id := sender_id, recipient_id := recipient_id, message := message,
        status := .pending, unlocked := has_posted_in_window, persuasion_attempts := 0 }
    if has_posted_in_window then
      ({ success := true, error? := none, status? := some .sent,
         message? := some "your ghost ask has been sent!", unlock_required := false },
       some { ghost_ask with status := .sent })
    else
      ({ success := true, error? := none, status? := some .pending,
         message? := some "ghost ask created but locked", unlock_required := true },
       some ghost_ask)

/-- The response dictionary of `GhostAskService.attempt_send_ghost_ask`,
one constructor per `return` site. -/
inductive AttemptResult
  | notFound (error : String)
  | alreadySent (error : String)
  | sentUnlocked (message : String)
  | forceSent (message : String) (attempts : Nat)
  | stillLocked (message : String) (attempts : Nat) (can_force_send : Bool)
  deriving DecidableEq, Repr

/-- Embeds `GhostAskService.attempt_send_ghost_ask`.  `ghost_ask?` is the
row the data store returns for `(ghost_ask_id, sender_id)`; `challenge?`,
`now` and `windowMinutes` feed the unlock re-check.  The second component
is the row after the call.  `force_send` is accepted by the signature and
never read by the body, exactly as in the code. -/
def attempt_send_ghost_ask (ghost_ask? : Option GhostAsk)
    (challenge? : Option DailyChallenge) (now windowMinutes : Int)
    (force_send : Bool) : AttemptResult × Option GhostAsk :=
  match ghost_ask? with
  | none => (.notFound "Ghost ask not found", none)
  | some ghost_ask =>
    if ghost_ask.status = .sent then
      (.alreadySent "Ghost ask already sent", some ghost_ask)
    else
      let has_posted_in_window :=
        check_user_posted_in_challenge_window challenge? now windowMinutes
      if has_posted_in_window then
        (.sentUnlocked "your ghost ask has been sent!",
         some { ghost_ask with status := .sent })
      else
        let attempts := ghost_ask.persuasion_attempts + 1
        let ghost_ask := { ghost_ask with persuasion_attempts := attempts }
        if attempts > 10 then
          (.forceSent "okay okay, you win. i\x27ll send it this ONE time" attempts,
           some { ghost_ask with status := .sent })
        else
          (.stillLocked "still locked" attempts (decide (attempts > 10)),
           some ghost_ask)

/-- Projects the `can_force_send` field out of a still-locked response
(`false` for every other response shape, which carries no such field). -/
def AttemptResult.canForceSendFlag : AttemptResult → Bool
  | .stillLocked _ _ cfs => cfs
  | _ => false

end GhostAskService

namespace RateLimiter

/-- Embeds `RateLimiter.check_rate_limit` (app/utils/rate_limiter.py).
`reqs` is the per-key entry list `self._requests[key]` (timestamp in
seconds, unit count) in append order; `now` is the current time.  The
method filters entries to `ts > now - window`, sums the surviving
counts, allows iff the sum is strictly below `limit`, and appends
`(now, 1)` to the stored list only when allowed.  It returns
`(is_allowed, current_count, time_until_reset, new entry list)`.
(The hourly `_cleanup_old_requests` pass only drops entries older than
24 hours, which no window of at most a day can see; it never changes
any of the four results modelled here.) -/
def check_rate_limit (reqs : List (Int × Nat)) (limit : Nat)
    (window_minutes now : Int) : Bool × Nat × Int × List (Int × Nat) :=
  let cutoff_time := now - window_minutes * 60
  let recent_requests := reqs.filter (fun p => p.1 > cutoff_time)
  let total_count := (recent_requests.map Prod.snd).sum
  let is_allowed := decide (total_count < limit)
  let time_until_reset :=
    match recent_requests.head? with
    | none => 0
    | some oldest => max 0 (oldest.1 + window_minutes * 60 - now)
  (is_allowed, total_count, time_until_reset,
   if is_allowed then reqs ++ [(now, 1)] else reqs)

/-- Runs `check_rate_limit` on one key for a sequence of call instants,
threading the stored entry list through, and collects the allowed flag
of each call.  This models successive calls against the same key. -/
def runCalls (times : List Int) (limit : Nat) (window_minutes : Int)
    (reqs : List (Int × Nat)) : List Bool :=
  match times with
  | [] => []
  | t :: rest =>
    let out := check_rate_limit reqs limit window_minutes t
    out.1 :: runCalls rest limit window_minutes out.2.2.2

end RateLimiter

/-- The `PostInsights` record (app/models/schemas.py) — the cached
analysis result of a post.  `confidence_score` is a rational standing
for the float in the code. -/
structure PostInsights where
  location_guess : Option String
  outfit_items : List String
  objects : List String
  vibe_descriptors : List String
  colors : List String
  activities : List String
  interests : List String
  summary : String
  confidence_score : ℚ
  deriving DecidableEq, Repr

namespace PostService

/-- The `post_insights` table: rows keyed by `post_id`.  The table has a
uniqueness constraint on `post_id` (the service upserts on that key). -/
abbrev InsightTable := List (String × PostInsights)

/-- Embeds `PostService.get_cached_insights`: a `.single()` select on
`post_id`.  `.single()` raises unless exactly one row matches, and the
`except` handler returns `None`, so the function yields the row when it
is unique and `none` otherwise. -/
def get_cached_insights (table : InsightTable) (post_id : String) :
    Option PostInsights :=
  match table.filter (fun r => r.1 = post_id) with
  | [r] => some r.2
  | _ => none

/-- Embeds `PostService._store_post_insights`: an upsert keyed by
`post_id` — replaces the row when the key is present, appends otherwise. -/
def store_post_insights (table : InsightTable) (post_id : String)
    (insights : PostInsights) : InsightTable :=
  if table.any (fun r => r.1 = post_id) then
    table.map (fun r => if r.1 = post_id then (post_id, insights) else r)
  else
    table ++ [(post_id, insights)]

/-- The degraded all-empty insight `analyze_post` synthesizes when it has
neither an image URL nor a caption to analyze.  The summary is Python's
`caption or "No content to analyze"`, which substitutes the default for
`None` and for the empty string alike. -/
def empty_insights (caption : Option String) : PostInsights :=
  { location_guess := none, outfit_items := [], objects := [],
    vibe_descriptors := [], colors := [], activities := [], interests := [],
    summary := if caption.getD "" = "" then "No content to analyze"
      else caption.getD "",
    confidence_score := 0 }

/-- Embeds `PostService.analyze_post`.  The two AI-provider calls are
passed in as function parameters `aiImage` (image analysis, given the
URL and optional caption) and `aiText` (text analysis, given the caption
and optional metadata).  Cache-first: when `get_cached_insights` finds a
row it is returned as-is and nothing is re-analyzed or written; the
`image_url`/`caption`/`metadata` arguments are never consulted on that
path.  Otherwise the branch taken follows Python truthiness: a present,
non-empty `image_url` wins, else a present non-empty `caption`, else the
degraded empty insight.  Returns the insight and the table after the
call. -/
def analyze_post (aiImage : String → Option String → PostInsights)
    (aiText : String → Option String → PostInsights)
    (table : InsightTable) (post_id : String)
    (image_url caption metadata : Option String) :
    PostInsights × InsightTable :=
  match get_cached_insights table post_id with
  | some cached => (cached, table)
  | none =>
    let insights :=
      if image_url.getD "" ≠ "" then
        aiImage (image_url.getD "") caption
      else if caption.getD "" ≠ "" then
        aiText (caption.getD "") metadata
      else
        empty_insights caption
    (insights, store_post_insights table post_id insights)

end PostService

/-- Connection degree enumeration (app/models/schemas.py,
`ConnectionDegree`): self=0, first=1, second=2, third=3. -/
inductive ConnectionDegree
  | self
  | first
  | second
  | third
  deriving DecidableEq, Repr

/-- A `NetworkMatch` response item of the network-query endpoint — the
fields claim C5 talks about (the matched user and the degree tag the
endpoint stamps on it). -/
structure NetworkMatch where
  user_id : String
  degree : ConnectionDegree
  deriving DecidableEq, Repr

namespace NetworkQuery

/-- Embeds the match-assembly tail of `query_network`
(app/api/network_query.py): the first-degree matches, truncated to
`max_results`, are appended tagged `FIRST`; then, only when the
first-degree list is empty and the second-degree list is not, the
second-degree matches (truncated to `max_results`) are appended tagged
`SECOND`. -/
def build_matches (first_degree_matches second_degree_matches : List String)
    (max_results : Nat) : List NetworkMatch :=
  let firstPart := (first_degree_matches.take max_results).map
    (fun u => { user_id := u, degree := .first })
  if first_degree_matches = [] ∧ second_degree_matches ≠ [] then
    firstPart ++ (second_degree_matches.take max_results).map
      (fun u => { user_id := u, degree := .second })
  else
    firstPart

end NetworkQuery

/-- Intro request status enumeration (app/models/schemas.py,
`IntroRequestStatus`). -/
inductive IntroRequestStatus
  | pending
  | accepted
  | declined
  | expired
  deriving DecidableEq, Repr

/-- A row of the `intro_requests` table (the fields the expiry sweep
reads and writes).  `expires_at` is in seconds. -/
structure IntroRequest where
  id : Nat
  status : IntroRequestStatus
  expires_at : Int
  deriving DecidableEq, Repr

namespace IntroService

/-- Embeds `IntroService.expire_old_requests`.  The method selects the
ids of the rows with `status = pending` and `expires_at < now`; when
none match it returns 0 without touching the table, otherwise it sets
`status = expired` on every row whose id is in the selected list and
returns how many ids were selected.  Returns the table after the call
and the count. -/
def expire_old_requests (table : List IntroRequest) (now : Int) :
    List IntroRequest × Nat :=
  let expired_ids := (table.filter
    (fun r => r.status = .pending ∧ r.expires_at < now)).map IntroRequest.id
  if expired_ids = [] then
    (table, 0)
  else
    (table.map (fun r =>
      if r.id ∈ expired_ids then { r with status := .expired } else r),
     expired_ids.length)

/-- Embeds `IntroService._check_rate_limits`.  `countQuery` is the
outcome of the data-store count of the requester's pending intro
requests over the last day; the `except` handler returns
`(True, None)` (fail open). -/
def check_rate_limits (countQuery : Except String Nat) (maxPerDay : Nat) :
    Bool × Option String :=
  match countQuery with
  | .ok count =>
    if count ≥ maxPerDay then
      (false, some s!"You\x27ve reached the daily limit of {maxPerDay} intro requests")
    else
      (true, none)
  | .error _ => (true, none)

/-- The row `_check_cooldown` reads: the most recent declined/expired
request of the `(requester, target)` pair, with the reference instant
already resolved to `updated_at or created_at` (seconds). -/
structure LastDeclinedOrExpired where
  status : IntroRequestStatus
  last_time : Int
  deriving DecidableEq, Repr

/-- Embeds `IntroService._check_cooldown`.  `lastQuery` is the outcome
of the data-store lookup: `.ok none` when no declined/expired row
exists, `.ok (some row)` otherwise, `.error e` when the query raises.
Cooldown is 7 days after a decline, 30 days otherwise; the `except`
handler returns `(True, None)` (fail open). -/
def check_cooldown (lastQuery : Except String (Option LastDeclinedOrExpired))
    (now : Int) : Bool × Option String :=
  match lastQuery with
  | .ok none => (true, none)
  | .ok (some last_request) =>
    let cooldown_days : Int := if last_request.status = .declined then 7 else 30
    let cooldown_end := last_request.last_time + cooldown_days * 86400
    if now < cooldown_end then
      (false, some "Please wait before requesting intro again.")
    else
      (true, none)
  | .error _ => (true, none)

end IntroService

namespace LocationChatService

/-- `math.radians`: degrees to radians. -/
noncomputable def radians (deg : ℝ) : ℝ := deg * Real.pi / 180

/-- `math.atan2 y x`, by its mathematical definition (the angle of the
point `(x, y)`, in `(-π, π]`). -/
noncomputable def atan2 (y x : ℝ) : ℝ :=
  if 0 < x then Real.arctan (y / x)
  else if x < 0 ∧ 0 ≤ y then Real.arctan (y / x) + Real.pi
  else if x < 0 ∧ y < 0 then Real.arctan (y / x) - Real.pi
  else if x = 0 ∧ 0 < y then Real.pi / 2
  else if x = 0 ∧ y < 0 then -(Real.pi / 2)
  else 0

/-- Embeds `LocationChatService._calculate_distance`: the Haversine
formula with Earth radius `R = 6371` km.  Coordinates are reals standing
for the floats of the code. -/
noncomputable def calculate_distance (lat1 lng1 lat2 lng2 : ℝ) : ℝ :=
  let R : ℝ := 6371
  let dlat := radians (lat2 - lat1)
  let dlng := radians (lng2 - lng1)
  let a := Real.sin (dlat / 2) * Real.sin (dlat / 2) +
    Real.cos (radians lat1) * Real.cos (radians lat2) *
    Real.sin (dlng / 2) * Real.sin (dlng / 2)
  let c := 2 * atan2 (Real.sqrt a) (Real.sqrt (1 - a))
  R * c

/-- Python `round(x, 1)`: round to one decimal place.  (Mathlib `round`
rounds half away from zero upward while Python rounds exact halves to
even; the two agree except on exact multiples of 0.05, which is
immaterial to every claim below.) -/
noncomputable def round1 (x : ℝ) : ℝ := (round (10 * x) : ℤ) / 10

/-- A connection of the caller as `find_network_users_near_location`
sees it: the user id/name from the signal record, and the post-derived
location (name and optional coordinates). -/
structure Connection where
  user_id : String
  name : String
  location_name : String
  coordinates? : Option (ℝ × ℝ)

/-- A `nearby_users` entry built by the loop body. -/
structure NearbyUser where
  user_id : String
  name : String
  location : String
  distance_km : ℝ
  coordinates : ℝ × ℝ

open Classical in
/-- The loop body of `find_network_users_near_location`: a connection
with post-derived coordinates within 10 km of the caller yields a
`nearby_users` entry with the rounded distance; any other connection
yields nothing. -/
noncomputable def mkNearbyUser (user_lat user_lng : ℝ) (conn : Connection) :
    Option NearbyUser :=
  match conn.coordinates? with
  | none => none
  | some coords =>
    let distance := calculate_distance user_lat user_lng coords.1 coords.2
    if distance ≤ 10 then
      some { user_id := conn.user_id, name := conn.name,
             location := conn.location_name, distance_km := round1 distance,
             coordinates := coords }
    else
      none

open Classical in
/-- Embeds `LocationChatService.find_network_users_near_location` from
the point where the caller's coordinates and the connections (resolved
to degree 2, together with their post-derived locations) are in hand:
collect the connections within 10 km, sort ascending by the recorded
`distance_km`, and return the first 10. -/
noncomputable def find_network_users_near_location (user_lat user_lng : ℝ)
    (conns : List Connection) : List NearbyUser :=
  let nearby_users := conns.filterMap (mkNearbyUser user_lat user_lng)
  (nearby_users.mergeSort (fun a b => decide (a.distance_km ≤ b.distance_km))).take 10

end LocationChatService

namespace Validators

/-- `ValidationLimits.MAX_URL_LENGTH` (app/utils/validators.py). -/
def MAX_URL_LENGTH : Nat := 2048

/-- `ValidationLimits.ALLOWED_IMAGE_EXTENSIONS`. -/
def ALLOWED_IMAGE_EXTENSIONS : List String :=
  [".jpg", ".jpeg", ".png", ".gif", ".webp"]

/-- Embeds `validate_image_url` (app/utils/validators.py).  A `None` or
empty argument is answered with `None`; otherwise the value is stripped,
an over-long or non-`http(s)` value raises `ValueError` (modelled as
`.error`), and the extension check computes `has_valid_ext` but its
failure branch is `pass`, so the stripped value is returned either way. -/
def validate_image_url (value? : Option String) : Except String (Option String) :=
  match value? with
  | none => .ok none
  | some value =>
    if value = "" then .ok none
    else
      let value := pyStrip value
      if pyLen value > MAX_URL_LENGTH then
        .error "Image URL is too long"
      else if ¬ (pyStartsWith value "http://" ∨ pyStartsWith value "https://") then
        .error "Image URL must start with http:// or https://"
      else
        let has_valid_ext := ALLOWED_IMAGE_EXTENSIONS.any
          (fun ext => pyEndsWith (pyLower value) ext)
        if ¬ has_valid_ext ∧ ¬ pyContains value '?' then
          .ok (some value)
        else
          .ok (some value)

end Validators

/-! ## Claim theorems -/

open GhostAskService in
/-- C1: the ghost-ask unlock check returns true iff the sender's most
recent DailyChallenge row has `has_posted = true` and `now` lies within
`[challenge_time, challenge_time + windowMinutes]`, or `has_posted =
true` and `now` is within window end + 5 minutes (grace period); with no
DailyChallenge row the check returns false; and a ghost ask created
while unlocked is immediately transitioned to `sent`. -/
theorem c1_ghost_ask_unlock (challenge? : Option DailyChallenge)
    (now windowMinutes : Int) (sender_id recipient_id message : String) :
    check_user_posted_in_challenge_window challenge? now windowMinutes
      = claimed_unlock_condition challenge? now windowMinutes
    ∧ check_user_posted_in_challenge_window none now windowMinutes = false
    ∧ (check_user_posted_in_challenge_window challenge? now windowMinutes = true →
        (create_ghost_ask challenge? now windowMinutes (Except.ok 0) 5
            sender_id recipient_id message).2.map GhostAsk.status
          = some GhostAskStatus.sent
        ∧ (create_ghost_ask challenge? now windowMinutes (Except.ok 0) 5
            sender_id recipient_id message).1.status? = some GhostAskStatus.sent) := by
  refine ⟨?_, rfl, ?_⟩
  · cases challenge? with
    | none => rfl
    | some c =>
      simp only [check_user_posted_in_challenge_window, claimed_unlock_condition]
      by_cases hA : c.challenge_time ≤ now ∧
          now ≤ c.challenge_time + windowMinutes * 60 ∧ c.has_posted = true
      · rw [if_pos hA]
        have h : (c.has_posted = true ∧ c.challenge_time ≤ now ∧
            now ≤ c.challenge_time + windowMinutes * 60) ∨
            (c.has_posted = true ∧
              now < c.challenge_time + windowMinutes * 60 + 5 * 60) := by tauto
        exact (decide_eq_true h).symm
      · rw [if_neg hA]
        by_cases hB : c.has_posted = true ∧
            now < c.challenge_time + windowMinutes * 60 + 5 * 60
        · rw [if_pos hB]
          have h : (c.has_posted = true ∧ c.challenge_time ≤ now ∧
              now ≤ c.challenge_time + windowMinutes * 60) ∨
              (c.has_posted = true ∧
                now < c.challenge_time + windowMinutes * 60 + 5 * 60) := by tauto
          exact (decide_eq_true h).symm
        · rw [if_neg hB]
          have h : ¬ ((c.has_posted = true ∧ c.challenge_time ≤ now ∧
              now ≤ c.challenge_time + windowMinutes * 60) ∨
              (c.has_posted = true ∧
                now < c.challenge_time + windowMinutes * 60 + 5 * 60)) := by tauto
          exact (decide_eq_false h).symm
  · intro h
    simp [create_ghost_ask, check_rate_limits, h]

open GhostAskService in
/-- C1 witness: with a challenge started 2 minutes ago, `has_posted =
true` and a 6-minute window, a ghost ask created now ends up `sent`. -/
theorem c1_ghost_ask_unlock_witness :
    (create_ghost_ask (some ⟨880, true⟩) 1000 6 (Except.ok 0) 5
        "s" "r" "hi").2.map GhostAsk.status = some GhostAskStatus.sent :=
  ((c1_ghost_ask_unlock (some ⟨880, true⟩) 1000 6 "s" "r" "hi").2.2 (by decide)).1

open GhostAskService in
/-- C2: for a ghost ask that is not yet `sent` and whose sender is still
locked, `attempt_send_ghost_ask` increments `persuasion_attempts` by
one; when the new count exceeds 10 it force-sends (status `sent`, with
the concession message) no matter what, and the `force_send` input flag
never changes the outcome; from `persuasion_attempts = 10` the next call
increments to 11 and force-sends. -/
theorem c2_force_send_threshold (ga : GhostAsk)
    (challenge? : Option DailyChallenge) (now windowMinutes : Int)
    (force_send : Bool) (hstatus : ga.status ≠ .sent)
    (hlocked : check_user_posted_in_challenge_window challenge? now windowMinutes
      = false) :
    (attempt_send_ghost_ask (some ga) challenge? now windowMinutes
        force_send).2.map GhostAsk.persuasion_attempts
      = some (ga.persuasion_attempts + 1)
    ∧ (ga.persuasion_attempts + 1 > 10 →
        attempt_send_ghost_ask (some ga) challenge? now windowMinutes force_send
          = (.forceSent "okay okay, you win. i\x27ll send it this ONE time"
               (ga.persuasion_attempts + 1),
             some { ga with persuasion_attempts := ga.persuasion_attempts + 1,
                            status := .sent }))
    ∧ (ga.persuasion_attempts = 10 →
        (attempt_send_ghost_ask (some ga) challenge? now windowMinutes
            force_send).1
          = .forceSent "okay okay, you win. i\x27ll send it this ONE time" 11
        ∧ (attempt_send_ghost_ask (some ga) challenge? now windowMinutes
            force_send).2.map GhostAsk.status = some GhostAskStatus.sent)
    ∧ attempt_send_ghost_ask (some ga) challenge? now windowMinutes true
      = attempt_send_ghost_ask (some ga) challenge? now windowMinutes false := by
  refine ⟨?_, ?_, ?_, rfl⟩
  · by_cases h10 : ga.persuasion_attempts + 1 > 10 <;>
      simp [attempt_send_ghost_ask, hstatus, hlocked, h10]
  · intro h10
    simp [attempt_send_ghost_ask, hstatus, hlocked, h10]
  · intro h10
    constructor <;> simp [attempt_send_ghost_ask, hstatus, hlocked, h10]

open GhostAskService in
/-- C2 witness: a pending ghost ask at `persuasion_attempts = 10`, with
a locked sender (no challenge row), force-sends on the next attempt. -/
theorem c2_force_send_threshold_witness :
    (attempt_send_ghost_ask (some ⟨"s", "r", "m", .pending, false, 10⟩)
        none 0 6 false).1
      = .forceSent "okay okay, you win. i\x27ll send it this ONE time" 11 :=
  ((c2_force_send_threshold ⟨"s", "r", "m", .pending, false, 10⟩ none 0 6
    false (by decide) (by decide)).2.2.1 rfl).1

open GhostAskService in
/-- C8: the still-locked response of `attempt_send_ghost_ask` always
carries `can_force_send = false`: the force-send branch returns first
whenever the incremented count exceeds 10, so the branch computing
`can_force_send = attempts > 10` only runs with `attempts ≤ 10`. -/
theorem c8_can_force_send_never_true (ghost_ask? : Option GhostAsk)
    (challenge? : Option DailyChallenge) (now windowMinutes : Int)
    (force_send : Bool) :
    ((attempt_send_ghost_ask ghost_ask? challenge? now windowMinutes
        force_send).1).canForceSendFlag = false := by
  cases ghost_ask? with
  | none => rfl
  | some ga =>
    by_cases hstatus : ga.status = .sent
    · simp [attempt_send_ghost_ask, hstatus, AttemptResult.canForceSendFlag]
    · by_cases hunlock : check_user_posted_in_challenge_window challenge? now
          windowMinutes = true
      · simp [attempt_send_ghost_ask, hstatus, hunlock,
          AttemptResult.canForceSendFlag]
      · by_cases h10 : ga.persuasion_attempts + 1 > 10 <;>
          simp [attempt_send_ghost_ask, hstatus, hunlock, h10,
            AttemptResult.canForceSendFlag]

open RateLimiter in
/-- C3: `check_rate_limit` counts only the entries inside the window,
allows iff the sum is strictly below the limit, records the new request
only when allowed (a rejected request does not count), and with limit 3
and a 1-minute window 3 successive calls succeed, a 4th within the
minute is rejected, and a call past 60 seconds from the first succeeds
again. -/
theorem c3_rate_limiter_windowing (reqs : List (Int × Nat)) (limit : Nat)
    (window_minutes now : Int) :
    ((check_rate_limit reqs limit window_minutes now).1 = true ↔
      ((reqs.filter (fun p => p.1 > now - window_minutes * 60)).map
        Prod.snd).sum < limit)
    ∧ ((check_rate_limit reqs limit window_minutes now).1 = true →
        (check_rate_limit reqs limit window_minutes now).2.2.2
          = reqs ++ [(now, 1)])
    ∧ ((check_rate_limit reqs limit window_minutes now).1 = false →
        (check_rate_limit reqs limit window_minutes now).2.2.2 = reqs)
    ∧ runCalls [0, 1, 2, 3, 61] 3 1 [] = [true, true, true, false, true] := by
  refine ⟨?_, ?_, ?_, by decide⟩
  · simp [check_rate_limit]
  · intro h
    simp only [check_rate_limit, decide_eq_true_eq] at h
    simp [check_rate_limit, h]
  · intro h
    simp only [check_rate_limit, decide_eq_false_iff_not] at h
    simp [check_rate_limit, h]

/-- C3 witness: on an empty history with limit 3 the first call is
allowed and is recorded as `(now, 1)`. -/
theorem c3_rate_limiter_windowing_witness :
    (RateLimiter.check_rate_limit [] 3 1 0).2.2.2 = [(0, 1)] :=
  (c3_rate_limiter_windowing [] 3 1 0).2.1 (by decide)

/-- C9: the service-internal gate checks fail open — when the data-store
query inside the ghost-ask daily-cap check, the intro daily-cap check,
or the intro cooldown check raises, the check returns allowed
(`(True, None)`) and creation proceeds as though no cap or cooldown
applied. -/
theorem c9_gate_checks_fail_open (e : String) (maxGhost maxIntro : Nat)
    (now : Int) :
    GhostAskService.check_rate_limits (.error e) maxGhost = (true, none)
    ∧ IntroService.check_rate_limits (.error e) maxIntro = (true, none)
    ∧ IntroService.check_cooldown (.error e) now = (true, none) :=
  ⟨rfl, rfl, rfl⟩

/-- C10: `validate_image_url` never rejects on extension grounds — every
string whose stripped form starts with `http://` or `https://` and is at
most 2048 characters long is returned stripped, even with a non-allowed
extension and no query string; `None` and the empty string map to
`None`. -/
theorem c10_validate_image_url (s : String)
    (hlen : pyLen (pyStrip s) ≤ Validators.MAX_URL_LENGTH)
    (hhttp : pyStartsWith (pyStrip s) "http://" = true ∨
      pyStartsWith (pyStrip s) "https://" = true) :
    Validators.validate_image_url (some s) = .ok (some (pyStrip s))
    ∧ Validators.validate_image_url none = .ok none
    ∧ Validators.validate_image_url (some "") = .ok none := by
  refine ⟨?_, rfl, rfl⟩
  by_cases hempty : s = ""
  · rw [hempty] at hhttp
    simp [pyStrip, pyStartsWith, List.isPrefixOf] at hhttp
  · simp only [Validators.validate_image_url]
    rw [if_neg hempty]
    rw [if_neg (by omega : ¬ pyLen (pyStrip s) > Validators.MAX_URL_LENGTH)]
    rw [if_neg (not_not_intro (by simpa using hhttp))]
    split_ifs <;> rfl

/-- C10 witness: a URL with the non-allowed extension `.bmp` and no
query string is returned unchanged. -/
theorem c10_validate_image_url_witness :
    Validators.validate_image_url (some "http://x.example/pic.bmp")
      = .ok (some (pyStrip "http://x.example/pic.bmp")) :=
  (c10_validate_image_url "http://x.example/pic.bmp" (by decide)
    (Or.inl (by decide))).1

/-- With unique `post_id` keys, at most one `post_insights` row matches
any key. -/
theorem insight_filter_length_le_one (table : PostService.InsightTable)
    (post_id : String) (h : (table.map Prod.fst).Nodup) :
    (table.filter (fun r => r.1 = post_id)).length ≤ 1 := by
  induction table with
  | nil => simp
  | cons hd tl ih =>
    simp only [List.map_cons, List.nodup_cons] at h
    by_cases hk : hd.1 = post_id
    · rw [List.filter_cons_of_pos (by simpa using hk)]
      have hnil : tl.filter (fun r => r.1 = post_id) = [] := by
        rw [List.filter_eq_nil_iff]
        intro r hr
        simp only [decide_eq_true_eq]
        intro hr1
        exact h.1 (hk ▸ hr1 ▸ List.mem_map_of_mem Prod.fst hr)
      simp [hnil]
    · rw [List.filter_cons_of_neg (by simpa using hk)]
      exact ih h.2

/-- After a cache miss, the upsert leaves exactly one row under the key
and the next lookup returns the stored insight. -/
theorem get_cached_insights_store (table : PostService.InsightTable)
    (post_id : String) (insights : PostInsights)
    (hnodup : (table.map Prod.fst).Nodup)
    (hmiss : PostService.get_cached_insights table post_id = none) :
    PostService.get_cached_insights
      (PostService.store_post_insights table post_id insights) post_id
      = some insights := by
  have hempty : table.filter (fun r => r.1 = post_id) = [] := by
    have hle := insight_filter_length_le_one table post_id hnodup
    cases hfil : table.filter (fun r => r.1 = post_id) with
    | nil => rfl
    | cons a t =>
      cases t with
      | cons b t2 => rw [hfil] at hle; simp at hle
      | nil =>
        unfold PostService.get_cached_insights at hmiss
        rw [hfil] at hmiss
        simp at hmiss
  have hany : table.any (fun r => decide (r.1 = post_id)) = false := by
    rw [List.any_eq_false]
    intro r hr
    have := List.filter_eq_nil_iff.mp hempty r hr
    simpa using this
  unfold PostService.store_post_insights
  rw [if_neg (by simp [hany])]
  unfold PostService.get_cached_insights
  rw [List.filter_append, hempty]
  simp

open PostService in
/-- C4: `analyze_post` is cache-first with no TTL and no invalidation —
when a `post_insights` row exists for the post id, the cached row is
returned verbatim (for any AI provider behaviour and any
image/caption/metadata arguments) and the table is untouched; in
particular a second call with different arguments still returns the
first call's insight. -/
theorem c4_post_insight_caching
    (aiImage aiText : String → Option String → PostInsights)
    (table : InsightTable) (post_id : String)
    (url1 cap1 md1 url2 cap2 md2 : Option String)
    (hnodup : (table.map Prod.fst).Nodup) :
    (∀ i, get_cached_insights table post_id = some i →
      ∀ url cap md,
        analyze_post aiImage aiText table post_id url cap md = (i, table))
    ∧ (analyze_post aiImage aiText
         (analyze_post aiImage aiText table post_id url1 cap1 md1).2
         post_id url2 cap2 md2).1
        = (analyze_post aiImage aiText table post_id url1 cap1 md1).1 := by
  constructor
  · intro i hi url cap md
    simp [analyze_post, hi]
  · cases hcache : get_cached_insights table post_id with
    | some j => simp [analyze_post, hcache]
    | none =>
      simp only [analyze_post, hcache]
      rw [get_cached_insights_store table post_id _ hnodup hcache]

open PostService in
/-- C4 witness: analyzing an uncached post and then re-analyzing it with
a different image URL and caption returns the first insight unchanged. -/
theorem c4_post_insight_caching_witness :
    (analyze_post (fun u _ => { empty_insights none with summary := u })
       (fun c _ => { empty_insights none with summary := c })
       ((analyze_post (fun u _ => { empty_insights none with summary := u })
          (fun c _ => { empty_insights none with summary := c })
          [] "p1" (some "http://a/1.png") none none).2)
       "p1" (some "http://b/2.png") (some "other") none).1
      = (analyze_post (fun u _ => { empty_insights none with summary := u })
          (fun c _ => { empty_insights none with summary := c })
          [] "p1" (some "http://a/1.png") none none).1 :=
  (c4_post_insight_caching (fun u _ => { empty_insights none with summary := u })
    (fun c _ => { empty_insights none with summary := c })
    [] "p1" (some "http://a/1.png") none none
    (some "http://b/2.png") (some "other") none (by decide)).2

/-- C5: the network-query endpoint never blends degrees — second-degree
matches appear only when there are zero first-degree matches; with at
least one first-degree match the response is exactly the first-degree
matches truncated to `max_results`. -/
theorem c5_no_degree_blend (fd sd : List String) (max_results : Nat) :
    (fd ≠ [] →
      NetworkQuery.build_matches fd sd max_results
        = (fd.take max_results).map
            (fun u => { user_id := u, degree := ConnectionDegree.first }))
    ∧ (∀ m ∈ NetworkQuery.build_matches fd sd max_results,
        m.degree = ConnectionDegree.second → fd = [])
    ∧ ¬ ((∃ m ∈ NetworkQuery.build_matches fd sd max_results,
            m.degree = ConnectionDegree.first) ∧
         (∃ m ∈ NetworkQuery.build_matches fd sd max_results,
            m.degree = ConnectionDegree.second))
    ∧ (fd = [] →
      NetworkQuery.build_matches fd sd max_results
        = (sd.take max_results).map
            (fun u => { user_id := u, degree := ConnectionDegree.second })) := by
  have hmain : NetworkQuery.build_matches fd sd max_results =
      if fd = [] ∧ sd ≠ [] then
        (fd.take max_results).map
            (fun u => { user_id := u, degree := ConnectionDegree.first })
          ++ (sd.take max_results).map
            (fun u => { user_id := u, degree := ConnectionDegree.second })
      else
        (fd.take max_results).map
          (fun u => { user_id := u, degree := ConnectionDegree.first }) := rfl
  by_cases hfd : fd = []
  · subst hfd
    refine ⟨fun h => absurd rfl h, fun _ _ _ => rfl, ?_, fun _ => ?_⟩
    · rintro ⟨⟨m, hm, hdeg⟩, -⟩
      by_cases hsd : sd = []
      · subst hsd
        rw [hmain, if_neg (fun hc => hc.2 rfl)] at hm
        simp at hm
      · have hcond : ([] : List String) = [] ∧ sd ≠ [] := ⟨rfl, hsd⟩
        rw [hmain, if_pos hcond] at hm
        simp only [List.take_nil, List.map_nil, List.nil_append,
          List.mem_map] at hm
        obtain ⟨u, -, rfl⟩ := hm
        simp at hdeg
    · by_cases hsd : sd = []
      · subst hsd
        rw [hmain, if_neg (fun hc => hc.2 rfl)]
        simp
      · have hcond : ([] : List String) = [] ∧ sd ≠ [] := ⟨rfl, hsd⟩
        rw [hmain, if_pos hcond]
        simp
  · refine ⟨fun _ => ?_, ?_, ?_, fun h => absurd h hfd⟩
    · simp [hmain, hfd]
    · intro m hm hdeg
      simp only [hmain, hfd, false_and, if_false, List.mem_map] at hm
      obtain ⟨u, -, rfl⟩ := hm
      simp at hdeg
    · rintro ⟨-, ⟨m, hm, hdeg⟩⟩
      simp only [hmain, hfd, false_and, if_false, List.mem_map] at hm
      obtain ⟨u, -, rfl⟩ := hm
      simp at hdeg

/-- C5 witness: with one first-degree and one second-degree candidate
the response is exactly the first-degree match. -/
theorem c5_no_degree_blend_witness :
    NetworkQuery.build_matches ["a"] ["b"] 10
      = [{ user_id := "a", degree := ConnectionDegree.first }] :=
  (c5_no_degree_blend ["a"] ["b"] 10).1 (by decide)

open IntroService in
/-- C6: `expire_old_requests` transitions exactly the pending intro
requests past their expiry to `expired` (never touching non-pending
rows), returns their count, and running it again immediately afterwards
changes nothing and returns 0.  `hids` is the primary-key uniqueness of
the `intro_requests` table. -/
theorem c6_intro_expiry_sweep (table : List IntroRequest) (now : Int)
    (hids : (table.map IntroRequest.id).Nodup) :
    (expire_old_requests table now).2
      = (table.filter (fun r =>
          r.status = IntroRequestStatus.pending ∧ r.expires_at < now)).length
    ∧ (expire_old_requests table now).1
      = table.map (fun r =>
          if r.status = IntroRequestStatus.pending ∧ r.expires_at < now then
            { r with status := IntroRequestStatus.expired }
          else r)
    ∧ expire_old_requests (expire_old_requests table now).1 now
        = ((expire_old_requests table now).1, 0) := by
  have hmem : ∀ r ∈ table,
      r.id ∈ (table.filter (fun r =>
          r.status = IntroRequestStatus.pending ∧ r.expires_at < now)).map
        IntroRequest.id
        ↔ (r.status = IntroRequestStatus.pending ∧ r.expires_at < now) := by
    intro r hr
    constructor
    · intro hin
      obtain ⟨r', hr', hid⟩ := List.mem_map.mp hin
      have hr'' := List.mem_filter.mp hr'
      have heq : r' = r := List.inj_on_of_nodup_map hids hr''.1 hr hid
      rw [← heq]
      simpa using hr''.2
    · intro hPr
      exact List.mem_map_of_mem _ (List.mem_filter.mpr ⟨hr, by simpa using hPr⟩)
  have hsecond : (expire_old_requests table now).1
      = table.map (fun r =>
          if r.status = IntroRequestStatus.pending ∧ r.expires_at < now then
            { r with status := IntroRequestStatus.expired }
          else r) := by
    by_cases hids0 : (table.filter (fun r =>
        r.status = IntroRequestStatus.pending ∧ r.expires_at < now)).map
        IntroRequest.id = []
    · unfold expire_old_requests
      rw [if_pos hids0]
      have hfil := List.map_eq_nil_iff.mp hids0
      have hnone := List.filter_eq_nil_iff.mp hfil
      refine ((List.map_congr_left fun r hr => ?_).trans (List.map_id table)).symm
      rw [if_neg (by simpa using hnone r hr)]
      rfl
    · unfold expire_old_requests
      rw [if_neg hids0]
      refine List.map_congr_left fun r hr => ?_
      by_cases hPr : r.status = IntroRequestStatus.pending ∧ r.expires_at < now
      · rw [if_pos ((hmem r hr).mpr hPr), if_pos hPr]
      · rw [if_neg (fun hc => hPr ((hmem r hr).mp hc)), if_neg hPr]
  have hfirst : (expire_old_requests table now).2
      = (table.filter (fun r =>
          r.status = IntroRequestStatus.pending ∧ r.expires_at < now)).length := by
    by_cases hids0 : (table.filter (fun r =>
        r.status = IntroRequestStatus.pending ∧ r.expires_at < now)).map
        IntroRequest.id = []
    · unfold expire_old_requests
      rw [if_pos hids0]
      rw [List.map_eq_nil_iff.mp hids0]
      rfl
    · unfold expire_old_requests
      rw [if_neg hids0]
      exact List.length_map _ _
  refine ⟨hfirst, hsecond, ?_⟩
  have hfil' : ((expire_old_requests table now).1).filter (fun r =>
      r.status = IntroRequestStatus.pending ∧ r.expires_at < now) = [] := by
    rw [hsecond, List.filter_eq_nil_iff]
    intro r' hr'
    obtain ⟨r, -, rfl⟩ := List.mem_map.mp hr'
    by_cases hPr : r.status = IntroRequestStatus.pending ∧ r.expires_at < now
    · rw [if_pos hPr]
      simp
    · rw [if_neg hPr]
      simpa using hPr
  generalize hT : (expire_old_requests table now).1 = T at hfil' ⊢
  unfold expire_old_requests
  rw [hfil']
  simp

open IntroService in
/-- C6 witness: a pending request one second past expiry is transitioned
(count 1) and a second run transitions nothing. -/
theorem c6_intro_expiry_sweep_witness :
    (expire_old_requests [⟨1, IntroRequestStatus.pending, -1⟩,
        ⟨2, IntroRequestStatus.accepted, -5⟩,
        ⟨3, IntroRequestStatus.pending, 100⟩] 0).2 = 1
    ∧ (expire_old_requests (expire_old_requests
        [⟨1, IntroRequestStatus.pending, -1⟩,
         ⟨2, IntroRequestStatus.accepted, -5⟩,
         ⟨3, IntroRequestStatus.pending, 100⟩] 0).1 0).2 = 0 := by
  have h := c6_intro_expiry_sweep [⟨1, IntroRequestStatus.pending, -1⟩,
    ⟨2, IntroRequestStatus.accepted, -5⟩,
    ⟨3, IntroRequestStatus.pending, 100⟩] 0 (by decide)
  exact ⟨h.1.trans (by decide), by rw [h.2.2]⟩

/-- The Haversine distance from a point to itself is zero. -/
theorem calculate_distance_self (lat lng : ℝ) :
    LocationChatService.calculate_distance lat lng lat lng = 0 := by
  unfold LocationChatService.calculate_distance LocationChatService.radians
    LocationChatService.atan2
  simp only [sub_self, zero_mul, zero_div, Real.sin_zero, mul_zero, zero_add,
    add_zero, Real.sqrt_zero, sub_zero, Real.sqrt_one]
  rw [if_pos (by norm_num : (0 : ℝ) < 1)]
  simp [Real.arctan_zero]

/-- Python `round(0, 1) = 0`. -/
theorem round1_zero : LocationChatService.round1 0 = 0 := by
  unfold LocationChatService.round1
  norm_num

/-- `filterMap` over a replicated element whose image is `some b`. -/
theorem filterMap_replicate_some {α β : Type} (f : α → Option β) (a : α)
    (b : β) (h : f a = some b) (n : Nat) :
    (List.replicate n a).filterMap f = List.replicate n b := by
  induction n with
  | zero => rfl
  | succ k ih => simp [List.replicate_succ, List.filterMap_cons, h, ih]

/-- A connection sitting exactly at the caller's location yields a
nearby-user entry at distance 0. -/
theorem mkNearbyUser_origin :
    LocationChatService.mkNearbyUser 0 0
      { user_id := "u", name := "n", location_name := "loc",
        coordinates? := some (0, 0) }
      = some { user_id := "u", name := "n", location := "loc",
               distance_km := 0, coordinates := (0, 0) } := by
  unfold LocationChatService.mkNearbyUser
  simp only [calculate_distance_self]
  rw [if_pos (by norm_num : (0 : ℝ) ≤ 10)]
  rw [round1_zero]

open LocationChatService in
/-- C7 counterexample: with six in-network connections all located
exactly at the caller's coordinates (all within 10 km),
`find_network_users_near_location` returns six users, not the five the
claim states. -/
theorem c7_counterexample_six_returned :
    (find_network_users_near_location 0 0 (List.replicate 6
        { user_id := "u", name := "n", location_name := "loc",
          coordinates? := some (0, 0) })).length = 6
    ∧ (6 : Nat) ≠ 5 := by
  refine ⟨?_, by decide⟩
  unfold find_network_users_near_location
  rw [filterMap_replicate_some _ _ _ mkNearbyUser_origin]
  rw [List.length_take, List.length_mergeSort, List.length_replicate]
  rfl

open LocationChatService in
/-- C7 (amended): `find_network_users_near_location` computes the
Haversine distance (Earth radius 6371 km) from the caller to every
connection with post-derived coordinates, keeps exactly those within
10 km, sorts ascending by the recorded distance, and returns the **10**
closest (not 5): the result has exactly `min 10 n` entries where `n` is
the number of qualifying connections, is sorted ascending by distance,
consists of within-10-km connections carrying their rounded Haversine
distance, and splits the qualifiers: result plus a remainder is a
permutation of all qualifiers and every omitted qualifier is at least
as far as every returned one — so in the over-10 regime exactly the 10
closest (by the recorded distance) are returned. -/
theorem c7_nearby_network_users (user_lat user_lng : ℝ)
    (conns : List Connection) :
    (find_network_users_near_location user_lat user_lng conns).length
      = min 10 (conns.filterMap (mkNearbyUser user_lat user_lng)).length
    ∧ List.Sorted (fun a b : NearbyUser => a.distance_km ≤ b.distance_km)
        (find_network_users_near_location user_lat user_lng conns)
    ∧ (∀ u ∈ find_network_users_near_location user_lat user_lng conns,
        ∃ conn ∈ conns, ∃ coords,
          conn.coordinates? = some coords ∧
          calculate_distance user_lat user_lng coords.1 coords.2 ≤ 10 ∧
          u = { user_id := conn.user_id, name := conn.name,
                location := conn.location_name,
                distance_km := round1
                  (calculate_distance user_lat user_lng coords.1 coords.2),
                coordinates := coords })
    ∧ ∃ rest : List NearbyUser,
        (find_network_users_near_location user_lat user_lng conns
            ++ rest).Perm
          (conns.filterMap (mkNearbyUser user_lat user_lng))
        ∧ ∀ u ∈ find_network_users_near_location user_lat user_lng conns,
            ∀ v ∈ rest, u.distance_km ≤ v.distance_km := by
  have hsorted : List.Sorted
      (fun a b : NearbyUser => a.distance_km ≤ b.distance_km)
      ((conns.filterMap (mkNearbyUser user_lat user_lng)).mergeSort
        (fun a b => decide (a.distance_km ≤ b.distance_km))) := by
    have hs := @List.sorted_mergeSort NearbyUser
      (fun a b : NearbyUser => decide (a.distance_km ≤ b.distance_km))
      (fun a b c hab hbc => by
        simp only [decide_eq_true_eq] at hab hbc ⊢
        exact le_trans hab hbc)
      (fun a b => by
        simp only [Bool.or_eq_true, decide_eq_true_eq]
        exact le_total a.distance_km b.distance_km)
      (conns.filterMap (mkNearbyUser user_lat user_lng))
    exact hs.imp (fun h => by simpa using h)
  refine ⟨?_, ?_, ?_, ?_⟩
  · unfold find_network_users_near_location
    rw [List.length_take, List.length_mergeSort]
  · unfold find_network_users_near_location
    exact hsorted.sublist (List.take_sublist _ _)
  · intro u hu
    unfold find_network_users_near_location at hu
    have hu' := List.mem_mergeSort.mp ((List.take_sublist _ _).mem hu)
    obtain ⟨conn, hconn, hfc⟩ := List.mem_filterMap.mp hu'
    unfold mkNearbyUser at hfc
    cases hc : conn.coordinates? with
    | none => rw [hc] at hfc; cases hfc
    | some coords =>
      rw [hc] at hfc
      dsimp only at hfc
      by_cases h10 : calculate_distance user_lat user_lng coords.1 coords.2 ≤ 10
      · rw [if_pos h10] at hfc
        exact ⟨conn, hconn, coords, hc, h10, (Option.some_inj.mp hfc).symm⟩
      · rw [if_neg h10] at hfc
        cases hfc
  · refine ⟨((conns.filterMap (mkNearbyUser user_lat user_lng)).mergeSort
        (fun a b => decide (a.distance_km ≤ b.distance_km))).drop 10, ?_, ?_⟩
    · unfold find_network_users_near_location
      rw [List.take_append_drop]
      exact List.mergeSort_perm _ _
    · intro u hu v hv
      unfold find_network_users_near_location at hu
      exact hsorted.rel_of_mem_take_of_mem_drop hu hv

open LocationChatService in
/-- C7 witness: with a single qualifying connection (at the caller's
location) the returned list has exactly `min 10 1` = one entry. -/
theorem c7_nearby_network_users_witness :
    (find_network_users_near_location 0 0
        [{ user_id := "u", name := "n", location_name := "loc",
           coordinates? := some (0, 0) }]).length
      = min 10 (List.filterMap (mkNearbyUser 0 0)
          [{ user_id := "u", name := "n", location_name := "loc",
             coordinates? := some (0, 0) }]).length :=
  (c7_nearby_network_users 0 0
    [{ user_id := "u", name := "n", location_name := "loc",
       coordinates? := some (0, 0) }]).1

end SixApp
